import Mathlib

set_option autoImplicit false

/-!
Verification development for the `browzer_web` crate
(`src/browzer_web/src/{lib,utils,context}.rs`).

Rust `String`s are embedded as `List Char` (a list of Unicode scalar
values) so that the distinction between byte length (`String::len`) and
character count (`str::chars().count()`), which the path formatter
depends on, is modelled faithfully.
-/

deriving instance DecidableEq for Except

namespace BrowzerWeb

/-- The Unicode `White_Space` property, as used by Rust's
`char::is_whitespace` (and hence by `str::trim`). -/
def isRustWhitespace (c : Char) : Bool :=
  decide ((0x09 ≤ c.val ∧ c.val ≤ 0x0D) ∨ c.val = 0x20 ∨ c.val = 0x85 ∨
    c.val = 0xA0 ∨ c.val = 0x1680 ∨ (0x2000 ≤ c.val ∧ c.val ≤ 0x200A) ∨
    c.val = 0x2028 ∨ c.val = 0x2029 ∨ c.val = 0x202F ∨ c.val = 0x205F ∨
    c.val = 0x3000)

/-- Rust's `str::trim`: drop leading and trailing whitespace characters. -/
def rustTrim (l : List Char) : List Char :=
  ((l.dropWhile isRustWhitespace).reverse.dropWhile isRustWhitespace).reverse

/-- Rust's `String::len`: the length of the string in UTF-8 bytes. -/
def rustByteLen (l : List Char) : Nat :=
  (l.map Char.utf8Size).sum

/-- Rust's `str::replace("/?", "?")`: replace every non-overlapping
occurrence of the two-character pattern `/?`, scanning left to right. -/
def replaceSlashQuery : List Char → List Char
  | [] => []
  | [c] => [c]
  | c :: d :: rest =>
    if c = '/' ∧ d = '?' then '?' :: replaceSlashQuery rest
    else c :: replaceSlashQuery (d :: rest)

/-- Whether the two-character pattern `/?` occurs anywhere in the list. -/
def hasSlashQuery : List Char → Bool
  | [] => false
  | [_] => false
  | c :: d :: rest => (c == '/' && d == '?') || hasSlashQuery (d :: rest)

/-- Whether every character is ASCII, i.e. encodes to a single UTF-8 byte
(so that Rust's byte length and character count agree). -/
def allASCII (l : List Char) : Bool :=
  l.all (fun c => c.utf8Size == 1)

/-- The second half of `utils::format_path_by_slashes`
(src/browzer_web/src/utils.rs:36-49): inspect
`path.chars().nth(path.len() - 1)` — note that `path.len()` is the *byte*
length while `nth` counts *characters* — pop the last character when it is
`'/'`, return the `PathFormatError` when `nth` yields `None`, and finally
replace every `"/?"` by `"?"`. -/
def stripAndCollapse (path : List Char) : Except String (List Char) :=
  match path[rustByteLen path - 1]? with
  | some lastChar =>
      Except.ok (replaceSlashQuery (if lastChar = '/' then path.dropLast else path))
  | none => Except.error ("Failed to format path by slashes")

/-- `utils::format_path_by_slashes` (src/browzer_web/src/utils.rs:32-50):
an input whose trim is empty is first replaced by `"/"`, after which
`stripAndCollapse` performs the remaining steps of the Rust function. -/
def format_path_by_slashes (input : List Char) : Except String (List Char) :=
  stripAndCollapse
    (if rustByteLen (rustTrim input) = 0 ∧ rustTrim input = [] then ['/'] else input)

/-- `utils::HttpMethod` (src/browzer_web/src/utils.rs:54-59). -/
inductive HttpMethod
  | GET
  | POST
  | PATCH
  | DELETE
deriving DecidableEq

/-- `utils::HttpMethod::to_string` (src/browzer_web/src/utils.rs:75-83). -/
def HttpMethod.to_string : HttpMethod → String
  | .GET => "GET"
  | .POST => "POST"
  | .PATCH => "PATCH"
  | .DELETE => "DELETE"

/-- `utils::HttpStatusCode` (src/browzer_web/src/utils.rs:88-106). -/
inductive HttpStatusCode
  | OK
  | Created
  | Accepted
  | NoContent
  | MovedPermanently
  | Found
  | SeeOther
  | NotModified
  | BadRequest
  | Unauthorized
  | Forbidden
  | NotFound
  | MethodNotAllowed
  | InternalServerError
  | NotImplemented
  | BadGateway
  | ServiceUnavailable
deriving DecidableEq

/-- `utils::HttpStatusCode::code` (src/browzer_web/src/utils.rs:122-142):
the (reason phrase, numeric code) pair returned by the code. -/
def HttpStatusCode.code : HttpStatusCode → String × Nat
  | .OK => ("OK", 200)
  | .Created => ("Created", 201)
  | .Accepted => ("Accepted", 202)
  | .NoContent => ("NoContent", 204)
  | .MovedPermanently => ("Moved Permanently", 301)
  | .Found => ("Found", 302)
  | .SeeOther => ("See Other", 303)
  | .NotModified => ("Not Modified", 304)
  | .BadRequest => ("Bad Request", 400)
  | .Unauthorized => ("Unauthorized", 401)
  | .Forbidden => ("Forbidden", 403)
  | .NotFound => ("Not Found", 404)
  | .MethodNotAllowed => ("Method Not Allowed", 405)
  | .InternalServerError => ("Internal Server Error", 500)
  | .NotImplemented => ("Not Implemented", 501)
  | .BadGateway => ("Bad Gateway", 502)
  | .ServiceUnavailable => ("Service Unavailable", 503)

/-- The status table fixed by the specification (spec.md §6, wire format):
"200 OK, 201 Created, 202 Accepted, 204 No Content, 301 Moved Permanently,
302 Found, 303 See Other, 304 Not Modified, 400 Bad Request,
401 Unauthorized, 403 Forbidden, 404 Not Found, 405 Method Not Allowed,
500 Internal Server Error, 501 Not Implemented, 502 Bad Gateway,
503 Service Unavailable". -/
def specStatusPair : HttpStatusCode → String × Nat
  | .OK => ("OK", 200)
  | .Created => ("Created", 201)
  | .Accepted => ("Accepted", 202)
  | .NoContent => ("No Content", 204)
  | .MovedPermanently => ("Moved Permanently", 301)
  | .Found => ("Found", 302)
  | .SeeOther => ("See Other", 303)
  | .NotModified => ("Not Modified", 304)
  | .BadRequest => ("Bad Request", 400)
  | .Unauthorized => ("Unauthorized", 401)
  | .Forbidden => ("Forbidden", 403)
  | .NotFound => ("Not Found", 404)
  | .MethodNotAllowed => ("Method Not Allowed", 405)
  | .InternalServerError => ("Internal Server Error", 500)
  | .NotImplemented => ("Not Implemented", 501)
  | .BadGateway => ("Bad Gateway", 502)
  | .ServiceUnavailable => ("Service Unavailable", 503)

/-- Modelled from the spec: `request.rs` is not under `src/`.  Per spec.md §3,
a Request is "{method, path, mapping of header name→value, raw query string}",
with the query string parsed into key=value pairs (spec.md §4.3); the header
map and query pairs are embedded as association lists in insertion order. -/
structure Request where
  method : String
  path : String
  headers : List (String × String)
  query_params : List (String × String)
deriving DecidableEq

/-- Modelled from the spec: `response.rs` is not under `src/`.  Per spec.md §3,
a Response is "{status code, mapping of header name→value, body string}";
its fields `status_code`, `headers` and `body` are the ones `context.rs`
manipulates. -/
structure Response where
  status_code : HttpStatusCode
  headers : List (String × String)
  body : String
deriving DecidableEq

/-- A fresh response, as handed to a handler inside a new `Context`
(`Context::new` pairs the request with `Response::default()`). -/
def Response.default : Response :=
  { status_code := HttpStatusCode.OK, headers := [], body := "" }

/-- `context::Context` (src/browzer_web/src/context.rs:32-37). -/
structure Context where
  request : Request
  response : Response
  params : List (String × String)
  query_params : List (String × String)

/-- `context::Context::send_string` (src/browzer_web/src/context.rs:88-97).
The Rust method mutates `self.response` in place and returns a clone of it;
the embedding returns the updated context together with the returned clone. -/
def Context.send_string (c : Context) (status_code : HttpStatusCode) (input : String) :
    Context × Response :=
  let res := { c.response with status_code := status_code, body := input }
  ({ c with response := res }, res)

/-- Split a character list at every occurrence of `sep`, keeping empty
pieces, as Rust's `str::split(sep)` does: `"/a/b"` → `["", "a", "b"]`. -/
def splitOnChar (sep : Char) : List Char → List (List Char)
  | [] => [[]]
  | x :: xs =>
    if x = sep then [] :: splitOnChar sep xs
    else
      match splitOnChar sep xs with
      | g :: gs => (x :: g) :: gs
      | [] => [[x]]

/-- Split at every whitespace character, keeping empty pieces. -/
def splitAtWhitespace : List Char → List (List Char)
  | [] => [[]]
  | x :: xs =>
    if isRustWhitespace x then [] :: splitAtWhitespace xs
    else
      match splitAtWhitespace xs with
      | g :: gs => (x :: g) :: gs
      | [] => [[x]]

/-- Rust's `str::split_whitespace`: the maximal non-empty runs of
non-whitespace characters. -/
def split_whitespace (l : List Char) : List (List Char) :=
  (splitAtWhitespace l).filter (fun t => !t.isEmpty)

/-- Modelled from the spec: `request.rs` is not under `src/`.  Per spec.md
§4.3, the query string is "parsed into key=value pairs split on `&`, each
pair split on the first `=` (a pair with no `=` yields an empty value for
that key)"; no percent-decoding is performed. -/
def parseQueryPairs (q : List Char) : List (String × String) :=
  (splitOnChar '&' q).map (fun pair =>
    (String.mk (pair.takeWhile (· ≠ '=')),
     match pair.dropWhile (· ≠ '=') with
     | [] => ""
     | _ :: v => String.mk v))

/-- Modelled from the spec: `request.rs` is not under `src/`.  Per spec.md
§4.3, "the path token is split into a route path and an optional query
string at the first `?`". -/
def splitPathQuery (tok : List Char) : List Char × List (String × String) :=
  (tok.takeWhile (· ≠ '?'),
   match tok.dropWhile (· ≠ '?') with
   | [] => []
   | _ :: q => parseQueryPairs q)

/-- Modelled from the spec: `request.rs` is not under `src/`.  Per spec.md
§4.3, "each subsequent line must contain a `:` separator; the substring
before the first `:` (trimmed) is the header name, the remainder (trimmed)
is the value; a line without a `:` is a parse error". -/
def parseHeaderLines : List String → Except String (List (String × String))
  | [] => Except.ok []
  | line :: rest =>
    if (line.toList.dropWhile (· ≠ ':')).isEmpty then
      Except.error ("Failed to parse request headers: " ++ line)
    else
      (parseHeaderLines rest).map (fun hs =>
        (String.mk (rustTrim (line.toList.takeWhile (· ≠ ':'))),
         String.mk (rustTrim (line.toList.dropWhile (· ≠ ':')).tail)) :: hs)

/-- Modelled from the spec: `request.rs` (`Request::new`) is not under
`src/`.  Per spec.md §4.3, "the first line must split into exactly three
whitespace-separated tokens: method, path, protocol-version; anything else
is a parse error identifying the offending line", then the headers are
parsed and the path token split into route path and query pairs. -/
def Request.new (lines : List String) : Except String Request :=
  match lines with
  | [] => Except.error ("Failed to parse request: no request line")
  | first :: rest =>
    match split_whitespace first.toList with
    | [m, pathTok, _version] =>
      (parseHeaderLines rest).map (fun hs =>
        let pq := splitPathQuery pathTok
        { method := String.mk m, path := String.mk pq.1,
          headers := hs, query_params := pq.2 })
    | _ => Except.error ("Failed to parse request line: " ++ first)

/-- The predicate `WebServer::handle_request` passes to `take_while`
(src/browzer_web/src/lib.rs:394-397): keep a successfully read line while
it is non-empty; stop at the first empty line or read error. -/
def lineAccept : Except String String → Bool
  | Except.ok line => !line.isEmpty
  | Except.error _ => false

/-- Rust's `collect::<Result<Vec<_>, _>>()` over an iterator of results:
the first error, if any, otherwise the list of all payloads. -/
def collectStrings : List (Except String String) → Except String (List String)
  | [] => Except.ok []
  | Except.ok s :: rest => (collectStrings rest).map (fun ss => s :: ss)
  | Except.error e :: _ => Except.error e

/-- The line-collection step of `WebServer::handle_request`
(src/browzer_web/src/lib.rs:392-398): `buf_reader.lines().take_while(...)
.collect()`, where each element of `results` is one `lines()` item. -/
def collectRequestLines (results : List (Except String String)) :
    Except String (List String) :=
  collectStrings (results.takeWhile lineAccept)

/-- Modelled from the spec: `router.rs` is not under `src/`.  Per spec.md
§3, a Route is "{HTTP method, normalized path pattern (may contain named
segments, e.g. `:id`), handler capability}". -/
structure Route where
  method : HttpMethod
  path : String
  handler : Context → Response

/-- Modelled from the spec: `router.rs` is not under `src/`.  Per spec.md
§3, `WebRouter` is a mapping from HTTP method to an ordered sequence of
Routes with insertion order preserved; it is embedded as one flat list in
registration order, recovering each method's sequence by filtering. -/
abbrev WebRouter : Type := List Route

/-- Modelled from the spec: `router.rs` (`WebRouter::add`) is not under
`src/`.  Per spec.md §4.4, `add` "normalizes `path` via the Path
Formatter, fails the registration ... if formatting fails, and appends the
route to the method's route list". -/
def WebRouter.add (router : WebRouter) (path : String) (method : HttpMethod)
    (handler : Context → Response) : WebRouter :=
  match format_path_by_slashes path.toList with
  | Except.ok formatted =>
      List.append router [{ method := method, path := String.mk formatted, handler := handler }]
  | Except.error _ => router

/-- Modelled from the spec: `router.rs` is not under `src/`.  Per spec.md
§4.4, a segment-wise match: "a literal segment must match exactly and a
named segment (prefixed, e.g., `:id`) matches any non-empty segment and
binds its value into the params mapping". -/
def matchSegments : List (List Char) → List (List Char) → Option (List (String × String))
  | [], [] => some []
  | pat :: pats, seg :: segs =>
    match pat with
    | ':' :: name =>
      if seg.isEmpty then none
      else (matchSegments pats segs).map (fun ps => (String.mk name, String.mk seg) :: ps)
    | _ => if pat = seg then matchSegments pats segs else none
  | _, _ => none

/-- The path-pattern segments of a route: its normalized pattern split on
`/`. -/
def routeSegments (r : Route) : List (List Char) :=
  splitOnChar '/' r.path.toList

/-- Attempt to match one route's pattern against the request path
segments. -/
def matchRoute (r : Route) (segs : List (List Char)) : Option (List (String × String)) :=
  matchSegments (routeSegments r) segs

/-- Modelled from the spec: `router.rs` is not under `src/`.  Per spec.md
§4.4, the router iterates candidate routes in registration order and "the
**first** route that matches wins". -/
def findMatch : WebRouter → List (List Char) → Option (Route × List (String × String))
  | [], _ => none
  | r :: rest, segs =>
    match matchRoute r segs with
    | some ps => some (r, ps)
    | none => findMatch rest segs

/-- The routes registered for one HTTP method, in registration order; a
request's method is the string parsed from the request line, compared with
`HttpMethod::to_string`. -/
def routesFor (router : WebRouter) (method : String) : WebRouter :=
  List.filter (fun r => r.method.to_string == method) router

/-- The synthesized 404 response (spec.md §4.4). -/
def notFoundResponse : Response :=
  { status_code := HttpStatusCode.NotFound, headers := [], body := "404 Not Found" }

/-- The synthesized 405 response (spec.md §4.4). -/
def methodNotAllowedResponse : Response :=
  { status_code := HttpStatusCode.MethodNotAllowed, headers := [], body := "405 Method Not Allowed" }

/-- An internal-error response for the case the spec leaves open (request
path fails formatting, an "internal-error signal" per spec.md §4.2). -/
def internalErrorResponse : Response :=
  { status_code := HttpStatusCode.InternalServerError, headers := [], body := "" }

/-- Modelled from the spec: `router.rs` (`WebRouter::handle_request`) is
not under `src/`.  Per spec.md §4.4: normalize the request path via the
Path Formatter, iterate the routes registered for the request's method in
registration order taking the first match, and on no match return 405 when
at least one route with a different method matches the same path, else
404.  On a match the bound handler is invoked with the populated
`Context`. -/
def WebRouter.handle_request (router : WebRouter) (req : Request) : Response :=
  match format_path_by_slashes req.path.toList with
  | Except.error _ => internalErrorResponse
  | Except.ok fpath =>
    let segs := splitOnChar '/' fpath
    match findMatch (routesFor router req.method) segs with
    | some (r, ps) =>
        r.handler { request := req, response := Response.default,
                    params := ps, query_params := req.query_params }
    | none =>
        if List.any (List.filter (fun r => r.method.to_string != req.method) router)
            (fun r => (matchRoute r segs).isSome)
        then methodNotAllowedResponse
        else notFoundResponse

/-- A handler that echoes the `id` path parameter into the response body,
used to observe which route a request was dispatched to. -/
def echoIdHandler : Context → Response :=
  fun c => { status_code := HttpStatusCode.OK, headers := [],
             body := (List.lookup "id" c.params).getD "no id param" }

/-- A handler with a fixed body marking the `/users/active` route. -/
def activeHandler : Context → Response :=
  fun _ => { status_code := HttpStatusCode.OK, headers := [], body := "active-route" }

/-- A handler with a fixed body, used where the handler is never reached. -/
def unreachedHandler : Context → Response :=
  fun _ => { status_code := HttpStatusCode.OK, headers := [], body := "unreached" }

/-- The router of spec.md §8's match-priority property: `/users/:id`
registered before `/users/active`, both under GET. -/
def demoRouter : WebRouter :=
  WebRouter.add (WebRouter.add [] "/users/:id" HttpMethod.GET echoIdHandler)
    "/users/active" HttpMethod.GET activeHandler

theorem rustByteLen_eq_length : ∀ (l : List Char), allASCII l = true → rustByteLen l = l.length := by
  intro l
  induction l with
  | nil => intro _; rfl
  | cons c rest ih =>
    intro h
    simp only [allASCII, List.all_cons, Bool.and_eq_true, beq_iff_eq] at h
    obtain ⟨h1, h2⟩ := h
    have hr := ih (by simp only [allASCII]; exact h2)
    simp only [rustByteLen, List.map_cons, List.sum_cons, List.length_cons] at *
    omega

theorem ne_nil_of_rustTrim_ne_nil {l : List Char} (h : rustTrim l ≠ []) : l ≠ [] := by
  intro hl
  exact h (by rw [hl]; rfl)

theorem stripAndCollapse_ascii (p : List Char) (hA : allASCII p = true) (hp : p ≠ []) :
    stripAndCollapse p =
      Except.ok (replaceSlashQuery (if p.getLast? = some '/' then p.dropLast else p)) := by
  have hlen : rustByteLen p = p.length := rustByteLen_eq_length p hA
  have hgl : p.getLast? = some (p.getLast hp) := List.getLast?_eq_getLast_of_ne_nil hp
  have hget : p[p.length - 1]? = some (p.getLast hp) := by
    rw [← List.getLast?_eq_getElem?]
    exact hgl
  unfold stripAndCollapse
  rw [hlen, hget, hgl]
  show Except.ok (replaceSlashQuery (if p.getLast hp = '/' then p.dropLast else p)) =
    Except.ok (replaceSlashQuery (if some (p.getLast hp) = some '/' then p.dropLast else p))
  simp only [Option.some.injEq]

theorem format_ascii_eq (p : List Char) (hA : allASCII p = true) (hT : rustTrim p ≠ []) :
    format_path_by_slashes p =
      Except.ok (replaceSlashQuery (if p.getLast? = some '/' then p.dropLast else p)) := by
  unfold format_path_by_slashes
  rw [if_neg (fun hand => hT hand.2)]
  exact stripAndCollapse_ascii p hA (ne_nil_of_rustTrim_ne_nil hT)

theorem replaceSlashQuery_eq_self : ∀ (l : List Char), hasSlashQuery l = false →
    replaceSlashQuery l = l := by
  intro l
  induction l with
  | nil => intro _; rfl
  | cons c rest ih =>
    cases rest with
    | nil => intro _; rfl
    | cons d rest2 =>
      intro h
      simp only [hasSlashQuery, Bool.or_eq_false_iff, Bool.and_eq_false_iff, beq_eq_false_iff_ne] at h
      rw [replaceSlashQuery, if_neg (by rcases h.1 with hne | hne <;> exact fun hand => hne (by simp [hand.1, hand.2]))]
      rw [ih h.2]

theorem colon_mem_of_dropWhile_ne_nil : ∀ (l : List Char),
    l.dropWhile (fun x => x ≠ ':') ≠ [] → ':' ∈ l := by
  intro l
  induction l with
  | nil => intro h; exact absurd rfl h
  | cons a as ih =>
    intro h
    by_cases ha : a = ':'
    · rw [ha]; exact List.mem_cons_self _ _
    · rw [List.dropWhile_cons_of_pos (by simpa using ha)] at h
      exact List.mem_cons_of_mem _ (ih h)

theorem parseHeaderLines_ok_colon : ∀ (ls : List String) (hs : List (String × String)),
    parseHeaderLines ls = Except.ok hs → ∀ line ∈ ls, ':' ∈ line.toList := by
  intro ls
  induction ls with
  | nil => intro hs _ line hm; cases hm
  | cons l0 rest ih =>
    intro hs h line hm
    unfold parseHeaderLines at h
    by_cases hdw : (l0.toList.dropWhile (fun x => x ≠ ':')).isEmpty = true
    · rw [if_pos hdw] at h
      exact absurd h (by simp)
    · rw [if_neg hdw] at h
      rw [List.mem_cons] at hm
      rcases hm with rfl | hm'
      · exact colon_mem_of_dropWhile_ne_nil _ (by simpa [List.isEmpty_iff] using hdw)
      · cases hph : parseHeaderLines rest with
        | error e => rw [hph] at h; exact absurd h (by simp [Except.map])
        | ok hs2 => exact ih hs2 hph line hm'

theorem collectStrings_all_ok : ∀ (rs : List (Except String String)),
    (∀ x ∈ rs, lineAccept x = true) →
    ∃ ls, collectStrings rs = Except.ok ls ∧ ∀ l ∈ ls, l ≠ "" := by
  intro rs
  induction rs with
  | nil => intro _; exact ⟨[], rfl, by intro l hl; cases hl⟩
  | cons x rest ih =>
    intro h
    have hx := h x (List.mem_cons_self _ _)
    cases x with
    | error e => simp [lineAccept] at hx
    | ok s =>
      obtain ⟨ls, hls, hne⟩ := ih (fun y hy => h y (List.mem_cons_of_mem _ hy))
      refine ⟨s :: ls, ?_, ?_⟩
      · show (collectStrings rest).map (fun ss => s :: ss) = Except.ok (s :: ls)
        rw [hls]
        rfl
      · intro l hl
        rw [List.mem_cons] at hl
        rcases hl with rfl | hl'
        · simp only [lineAccept, Bool.not_eq_true'] at hx
          intro hs
          rw [hs] at hx
          exact absurd hx (by decide)
        · exact hne l hl'

/-- C1: the spec claims empty, all-whitespace, and exactly-`/` inputs all
format to `Ok("/")`, but the code has no whole-path-is-`/` exception: it
pops the trailing slash of `"/"` itself, so all three inputs yield
`Ok("")` — contradicting the code's own doc-test
`assert_eq!(format_path_by_slashes("/".to_string()), Ok("/".to_string()))`
at src/browzer_web/src/utils.rs:30. -/
theorem c1_format_root_yields_empty :
    format_path_by_slashes "/".toList = Except.ok "".toList ∧
    format_path_by_slashes "".toList = Except.ok "".toList ∧
    format_path_by_slashes "   ".toList = Except.ok "".toList := by
  decide

/-- C2 counterexample: path formatting is not idempotent as claimed:
`format("//") = Ok("/")` but `format("/") = Ok("")`, so
`format(format("//")) ≠ format("//")`. -/
theorem c2_idempotence_counterexample :
    format_path_by_slashes "//".toList = Except.ok "/".toList ∧
    format_path_by_slashes "/".toList = Except.ok "".toList ∧
    (format_path_by_slashes "//".toList).bind format_path_by_slashes ≠
      format_path_by_slashes "//".toList := by
  decide

/-- C2 (amended): formatting is idempotent on every input whose formatted
result `q` is a fixed point of the formatter: `q` empty, or `q` ASCII with
non-empty trim, not ending in `/`, and containing no occurrence of `/?`. -/
theorem c2_format_idempotent_on_stable (p q : List Char)
    (h : format_path_by_slashes p = Except.ok q)
    (hq : q = [] ∨ (allASCII q = true ∧ rustTrim q ≠ [] ∧
      q.getLast? ≠ some '/' ∧ hasSlashQuery q = false)) :
    format_path_by_slashes q = Except.ok q := by
  rcases hq with rfl | ⟨hA, hT, hL, hS⟩
  · decide
  · rw [format_ascii_eq q hA hT, if_neg hL, replaceSlashQuery_eq_self q hS]

/-- C2 witness: the amended idempotence at `p = "/a/b/"`,
whose formatted result `"/a/b"` formats to itself. -/
theorem c2_format_idempotent_on_stable_witness :
    format_path_by_slashes "/a/b".toList = Except.ok "/a/b".toList :=
  c2_format_idempotent_on_stable "/a/b/".toList "/a/b".toList (by decide)
    (Or.inr (by decide))

/-- C3: `HttpStatusCode::code` agrees with the spec's status table on
every variant except `NoContent`, where the code returns the reason
phrase `"NoContent"` instead of the table's `"No Content"`. -/
theorem c3_status_table_deviation :
    specStatusPair HttpStatusCode.NoContent = ("No Content", 204) ∧
    ∀ s : HttpStatusCode,
      HttpStatusCode.code s =
        if s = HttpStatusCode.NoContent then ("NoContent", 204)
        else specStatusPair s := by
  refine ⟨rfl, ?_⟩
  intro s
  cases s <;> rfl

/-- C4 counterexample: `format_path_by_slashes` is not total: on the
one-character non-ASCII input `"é"` (U+00E9, two UTF-8 bytes) the
`chars().nth(path.len() - 1)` lookup yields `None` and the
`PathFormatError` branch is taken. -/
theorem c4_nonascii_error :
    format_path_by_slashes [Char.ofNat 233] =
      Except.error ("Failed to format path by slashes") := by
  decide

/-- C4 (amended): for every input consisting solely of ASCII characters
the function returns `Ok`; the error branch is reachable only for inputs
containing a multi-byte character, because the code indexes characters by
the byte length. -/
theorem c4_format_total_on_ascii (p : List Char) (h : allASCII p = true) :
    (format_path_by_slashes p).isOk = true := by
  by_cases hT : rustTrim p = []
  · unfold format_path_by_slashes
    rw [if_pos ⟨by rw [hT]; rfl, hT⟩]
    decide
  · rw [format_ascii_eq p h hT]
    rfl

/-- C4 witness: totality at the ASCII input `"/a/b"`. -/
theorem c4_format_total_on_ascii_witness :
    allASCII "/a/b".toList = true ∧
    (format_path_by_slashes "/a/b".toList).isOk = true :=
  ⟨by decide, c4_format_total_on_ascii "/a/b".toList (by decide)⟩

/-- C5: the formatter strips a single trailing slash and collapses `/?`
to `?`: `format("/a/b/") = Ok("/a/b")`, `format("/x/?y=1") = Ok("/x?y=1")`,
and in general every ASCII input with non-empty trim maps to the
`"/?"`-replacement of the input with a single trailing `/` removed. -/
theorem c5_strip_and_collapse :
    format_path_by_slashes "/a/b/".toList = Except.ok "/a/b".toList ∧
    format_path_by_slashes "/x/?y=1".toList = Except.ok "/x?y=1".toList ∧
    ∀ p : List Char, allASCII p = true → rustTrim p ≠ [] →
      format_path_by_slashes p =
        Except.ok (replaceSlashQuery
          (if p.getLast? = some '/' then p.dropLast else p)) :=
  ⟨by decide, by decide, format_ascii_eq⟩

/-- C5 witness: the general clause evaluated at `"/m/"`. -/
theorem c5_strip_and_collapse_witness :
    format_path_by_slashes "/m/".toList =
      Except.ok (replaceSlashQuery
        (if "/m/".toList.getLast? = some '/' then "/m/".toList.dropLast
         else "/m/".toList)) :=
  c5_strip_and_collapse.2.2 "/m/".toList (by decide) (by decide)

/-- C6: declaration-order precedence: with `/users/:id` registered before
`/users/active`, the request path `/users/active` is matched by the first
route with `id` bound to `"active"` (even though the second route also
matches), the dispatched handler observes that binding, and in general
the first route whose pattern matches wins. -/
theorem c6_first_route_wins :
    ((findMatch (routesFor demoRouter "GET")
        (splitOnChar '/' "/users/active".toList)).map
        (fun rp => (rp.1.path, rp.2)) =
      some ("/users/:id", [("id", "active")])) ∧
    (matchRoute
      { method := HttpMethod.GET, path := "/users/active", handler := activeHandler }
      (splitOnChar '/' "/users/active".toList) = some []) ∧
    ((WebRouter.handle_request demoRouter
      { method := "GET", path := "/users/active", headers := [], query_params := [] }).body =
        "active") ∧
    (∀ (r : Route) (rest : WebRouter) (segs : List (List Char))
        (ps : List (String × String)),
      matchRoute r segs = some ps → findMatch (r :: rest) segs = some (r, ps)) := by
  refine ⟨by decide, by decide, by decide, ?_⟩
  intro r rest segs ps h
  simp only [findMatch, h]

/-- C6 witness: the first-match clause at a one-route router. -/
theorem c6_first_route_wins_witness :
    findMatch
      [{ method := HttpMethod.GET, path := "/users/:id", handler := echoIdHandler }]
      (splitOnChar '/' "/users/7".toList) =
      some ({ method := HttpMethod.GET, path := "/users/:id", handler := echoIdHandler },
        [("id", "7")]) :=
  c6_first_route_wins.2.2.2 _ [] _ _ (by decide)

/-- C7: when no route registered under the request's own method matches
the (formatted) request path, `handle_request` returns the synthesized
405 response if some route with a different method matches the path, and
the synthesized 404 response if no route of any method matches. -/
theorem c7_method_mismatch_405 (router : WebRouter) (req : Request)
    (fpath : List Char)
    (hf : format_path_by_slashes req.path.toList = Except.ok fpath)
    (hown : findMatch (routesFor router req.method) (splitOnChar '/' fpath) = none) :
    (List.any (List.filter (fun r => r.method.to_string != req.method) router)
        (fun r => (matchRoute r (splitOnChar '/' fpath)).isSome) = true →
      WebRouter.handle_request router req = methodNotAllowedResponse) ∧
    ((∀ r ∈ router, matchRoute r (splitOnChar '/' fpath) = none) →
      WebRouter.handle_request router req = notFoundResponse) := by
  have hreq : WebRouter.handle_request router req =
      if List.any (List.filter (fun r => r.method.to_string != req.method) router)
          (fun r => (matchRoute r (splitOnChar '/' fpath)).isSome)
        then methodNotAllowedResponse else notFoundResponse := by
    simp only [WebRouter.handle_request, hf, hown]
  constructor
  · intro hany
    rw [hreq, if_pos hany]
  · intro hnone
    have hfalse : List.any (List.filter (fun r => r.method.to_string != req.method) router)
        (fun r => (matchRoute r (splitOnChar '/' fpath)).isSome) = false := by
      rw [List.any_eq_false]
      intro r hr
      rw [hnone r (List.mem_filter.mp hr).1]
      simp
    rw [hreq, if_neg (by simp [hfalse])]

/-- C7 witness: a router holding only `POST /a` answers `GET /a` with the
synthesized 405 response. -/
theorem c7_method_mismatch_405_witness :
    WebRouter.handle_request
        [{ method := HttpMethod.POST, path := "/a", handler := unreachedHandler }]
        { method := "GET", path := "/a", headers := [], query_params := [] } =
      methodNotAllowedResponse :=
  (c7_method_mismatch_405
      [{ method := HttpMethod.POST, path := "/a", handler := unreachedHandler }]
      { method := "GET", path := "/a", headers := [], query_params := [] }
      "/a".toList (by decide) (by rfl)).1 (by rfl)

/-- C8: the request parser succeeds exactly on a three-token request line
followed by header lines each containing `:`: the example input parses to
method `GET`, path `/hello`, headers `{Host: "x"}`; `["BADLINE"]` and a
header line without `:` are parse errors; and every successful parse had
a three-token first line and colon-bearing subsequent lines. -/
theorem c8_request_parse :
    (Request.new ["GET /hello HTTP/1.1", "Host: x"] =
      Except.ok
        { method := "GET", path := "/hello", headers := [("Host", "x")], query_params := [] }) ∧
    ((Request.new ["BADLINE"]).isOk = false) ∧
    ((Request.new ["GET / HTTP/1.1", "NoColonHere"]).isOk = false) ∧
    (∀ (lines : List String) (req : Request),
      Request.new lines = Except.ok req →
      ∃ first rest, lines = first :: rest ∧
        (split_whitespace first.toList).length = 3 ∧
        ∀ line ∈ rest, ':' ∈ line.toList) := by
  refine ⟨by decide, by decide, by decide, ?_⟩
  intro lines req h
  cases lines with
  | nil => exact absurd h (by simp [Request.new])
  | cons first rest =>
    refine ⟨first, rest, rfl, ?_, ?_⟩
    · simp only [Request.new] at h
      split at h
      · next m pathTok v heq =>
        rw [heq]
        rfl
      · exact absurd h (by simp)
    · simp only [Request.new] at h
      split at h
      · next m pathTok v heq =>
        cases hph : parseHeaderLines rest with
        | error e => rw [hph] at h; exact absurd h (by simp [Except.map])
        | ok hs => exact parseHeaderLines_ok_colon rest hs hph
      · exact absurd h (by simp)

/-- C8 witness: the structural clause at the example input. -/
theorem c8_request_parse_witness :
    ∃ first rest, (["GET /hello HTTP/1.1", "Host: x"] : List String) = first :: rest ∧
      (split_whitespace first.toList).length = 3 ∧
      ∀ line ∈ rest, ':' ∈ line.toList :=
  c8_request_parse.2.2.2 ["GET /hello HTTP/1.1", "Host: x"]
    { method := "GET", path := "/hello", headers := [("Host", "x")],
      query_params := [] }
    (by decide)

/-- C9: for every sequence of line-read results, the collection step of
`WebServer::handle_request` succeeds and hands the parser a list of lines
none of which is empty (collection stops at, and excludes, the first
empty line or read error). -/
theorem c9_collected_lines_have_no_empty_line (results : List (Except String String)) :
    ∃ ls, collectRequestLines results = Except.ok ls ∧ ∀ l ∈ ls, l ≠ "" :=
  collectStrings_all_ok _ (fun _ hx => List.mem_takeWhile_imp hx)

/-- C10: `Context::send_string` sets the response's status code and body,
returns a copy equal to the updated response, and leaves the response
headers and the context's request, params and query params unchanged. -/
theorem c10_send_string_frame (c : Context) (status : HttpStatusCode) (input : String) :
    (c.send_string status input).2 = (c.send_string status input).1.response ∧
    (c.send_string status input).1.response.status_code = status ∧
    (c.send_string status input).1.response.body = input ∧
    (c.send_string status input).1.response.headers = c.response.headers ∧
    (c.send_string status input).1.request = c.request ∧
    (c.send_string status input).1.params = c.params ∧
    (c.send_string status input).1.query_params = c.query_params :=
  ⟨rfl, rfl, rfl, rfl, rfl, rfl, rfl⟩

end BrowzerWeb
